import Mathlib

/-!
Verification of the Instant-Coffee core: a shallow embedding of the
repository's Java source emitter, scalar/array marshalling tables,
exception convention, sum-type runtime dispatch and native symbol naming,
with theorems settling the specification's claims against it.

Sources embedded:
* `instant-coffee/src/lib.rs` (JavaType impls, JniArray impls, JavaReturn)
* `instant-coffee/src/jni_util.rs` (map_jni_error)
* `instant-coffee/src/interop.rs` (JavaChar)
* `instant-coffee/src/codegen.rs` (JClassDecl emitter)
* `instant-coffee-proc-macro/src/lib.rs` (export symbol naming, generated
  native-callable wrapper, tagged-union from_jni dispatch)
-/

namespace InstantCoffee

/-- JNI exception descriptor, mirroring `jni::errors::Exception` (a class
name such as "java/lang/RuntimeException" plus a message). The Rust field
`class` is called `cls` here because `class` is reserved in Lean. -/
structure JException where
  cls : String
  msg : String
deriving DecidableEq, Repr

/-- Every conversion in the crate returns `Result<T, Option<Exception>>`:
`Ok v` is Success, `Err(None)` signals an exception already pending on the
JVM (PendingException), `Err(Some e)` asks the boundary to synthesize and
throw `e` (SynthesizedException). -/
abbrev JniResult (α : Type) := Except (Option JException) α

/-- `jni_util.rs::map_jni_error`: `Error::JavaException` (an exception is
already pending) maps to `None`; every other JNI error is wrapped as a
synthesized `java/lang/RuntimeException`. The JNI error is abstracted to
its rendered description string. -/
inductive JniError where
  | JavaException
  | Other (description : String)
deriving DecidableEq, Repr

def map_jni_error : JniError → Option JException
  | .JavaException => none
  | .Other description =>
      some ⟨"java/lang/RuntimeException", "JNI error: " ++ description⟩

/-- The `match res` at the end of every generated native-callable wrapper
(`jmodule`'s `export_fn`, proc-macro `lib.rs`): given the outcome `res` of
the inner try-block (input conversion, call, output conversion), it yields
the list of exceptions raised via `env.throw_new` (first component) and
the value returned to the JVM (second component).
`exceptionNull` is the output type's `EXCEPTION_NULL()` sentinel. -/
def export_boundary {α : Type} (exceptionNull : α) :
    JniResult α → List JException × α
  | .ok out => ([], out)
  | .error none => ([], exceptionNull)
  | .error (some e) => ([e], exceptionNull)

/-- JVM object handle: either the null reference or a live reference. -/
inductive JHandle where
  | null
  | ref (id : Nat)
deriving DecidableEq, Repr

/-- Bit-pattern stand-in for `f32`/`f64` values.  The marshalling layer
performs no floating-point arithmetic: `self as jfloat` (with
`jfloat = f32`) moves the value unchanged, so values are represented
opaquely by their bit pattern. -/
structure FloatBits where
  bits : Nat
deriving DecidableEq, Repr

/-- `interop.rs::JavaChar`: a 16-bit UTF-16 code unit; the JNI lane
`jchar` is `u16`. -/
structure JavaChar where
  val : Nat
deriving DecidableEq, Repr

/-! ### EXCEPTION_NULL sentinels (lib.rs, one per JavaType/JavaReturn impl) -/

def bool_EXCEPTION_NULL : Fin 256 := 0
def i8_EXCEPTION_NULL : Int := 0
def u8_EXCEPTION_NULL : Int := 0
def i16_EXCEPTION_NULL : Int := 0
def u16_EXCEPTION_NULL : Int := 0
def i32_EXCEPTION_NULL : Int := 0
def u32_EXCEPTION_NULL : Int := 0
def i64_EXCEPTION_NULL : Int := 0
def u64_EXCEPTION_NULL : Int := 0
def f32_EXCEPTION_NULL : FloatBits := ⟨0⟩
def f64_EXCEPTION_NULL : FloatBits := ⟨0⟩
def JavaChar_EXCEPTION_NULL : Nat := 0
def String_EXCEPTION_NULL : JHandle := .null
def unit_EXCEPTION_NULL : Unit := ()

/-! ### Scalar conversions (lib.rs `impl JavaType for ...`)

The signed JNI lanes `jbyte`/`jshort`/`jint`/`jlong` are modelled as `Int`
(their two's-complement value); the unsigned Rust types as `Nat`.
`toSigned w` is the Rust cast `v as iW` applied to a `uW` value, and
`toUnsigned w` the cast back (`j as uW`). -/

def toSigned (w : Nat) (v : Nat) : Int :=
  if v < 2 ^ (w - 1) then (v : Int) else (v : Int) - 2 ^ w

def toUnsigned (w : Nat) (j : Int) : Nat := (j % ((2 : Int) ^ w)).toNat

/-- `impl JavaType for bool`, `from_jni`: `Ok(jni_value != 0)`
(jboolean is an 8-bit integer). -/
def bool_from_jni (j : Fin 256) : JniResult Bool := .ok (j != 0)

/-- `impl JavaType for bool`, `into_jni`: `Ok(self as jboolean)`. -/
def bool_into_jni (b : Bool) : JniResult (Fin 256) :=
  .ok (if b then 1 else 0)

def i8_from_jni (j : Int) : JniResult Int := .ok j
def i8_into_jni (v : Int) : JniResult Int := .ok v
def u8_from_jni (j : Int) : JniResult Nat := .ok (toUnsigned 8 j)
def u8_into_jni (v : Nat) : JniResult Int := .ok (toSigned 8 v)
def i16_from_jni (j : Int) : JniResult Int := .ok j
def i16_into_jni (v : Int) : JniResult Int := .ok v
def u16_from_jni (j : Int) : JniResult Nat := .ok (toUnsigned 16 j)
def u16_into_jni (v : Nat) : JniResult Int := .ok (toSigned 16 v)
def i32_from_jni (j : Int) : JniResult Int := .ok j
def i32_into_jni (v : Int) : JniResult Int := .ok v
def u32_from_jni (j : Int) : JniResult Nat := .ok (toUnsigned 32 j)
def u32_into_jni (v : Nat) : JniResult Int := .ok (toSigned 32 v)
def i64_from_jni (j : Int) : JniResult Int := .ok j
def i64_into_jni (v : Int) : JniResult Int := .ok v
def u64_from_jni (j : Int) : JniResult Nat := .ok (toUnsigned 64 j)
def u64_into_jni (v : Nat) : JniResult Int := .ok (toSigned 64 v)
def f32_from_jni (j : FloatBits) : JniResult FloatBits := .ok j
def f32_into_jni (v : FloatBits) : JniResult FloatBits := .ok v
def f64_from_jni (j : FloatBits) : JniResult FloatBits := .ok j
def f64_into_jni (v : FloatBits) : JniResult FloatBits := .ok v
def JavaChar_from_jni (j : Nat) : JniResult JavaChar := .ok ⟨j⟩
def JavaChar_into_jni (c : JavaChar) : JniResult Nat := .ok c.val

/-! ### Roundtrip helper lemmas -/

theorem toUnsigned_toSigned_8 (v : Nat) (hv : v < 2 ^ 8) :
    toUnsigned 8 (toSigned 8 v) = v := by
  unfold toUnsigned toSigned
  split <;> omega

theorem toUnsigned_toSigned_16 (v : Nat) (hv : v < 2 ^ 16) :
    toUnsigned 16 (toSigned 16 v) = v := by
  unfold toUnsigned toSigned
  split <;> omega

theorem toUnsigned_toSigned_32 (v : Nat) (hv : v < 2 ^ 32) :
    toUnsigned 32 (toSigned 32 v) = v := by
  unfold toUnsigned toSigned
  split <;> omega

theorem toUnsigned_toSigned_64 (v : Nat) (hv : v < 2 ^ 64) :
    toUnsigned 64 (toSigned 64 v) = v := by
  unfold toUnsigned toSigned
  split <;> omega

/-! ### Java source emitter (codegen.rs)

The `io::Write` sink is modelled by returning the written `String`; every
`write!`/`writeln!` becomes string concatenation (`writeln!` appends a
trailing newline).  A literal brace in the emitted Java source is written
with its escape (`\x7b` / `\x7d`) in string literals below. -/

/-- `codegen.rs::JAccessModifier`. -/
inductive JAccessModifier where
  | Public
  | Protected
  | PackagePrivate
  | Private
deriving DecidableEq, Repr

/-- The `Display` impl for `JAccessModifier` (PackagePrivate renders as the
empty string). -/
def JAccessModifier.render : JAccessModifier → String
  | .Public => "public"
  | .Protected => "protected"
  | .PackagePrivate => ""
  | .Private => "private"

/-- `codegen.rs::JField`. -/
structure JField where
  access : JAccessModifier
  jtype : String
  name : String
deriving DecidableEq, Repr

/-- `codegen.rs::JMethod`; `inputs` entries are (parameter name,
parameter type), as in the source. -/
structure JMethod where
  is_static : Bool
  name : String
  inputs : List (String × String)
  output : String
deriving DecidableEq, Repr

/-- The parameter loop of `JMethod::write_method`: a `first` flag decides
whether to prepend the `", "` separator before each `"{type} {name}"`. -/
def writeParamsAux : Bool → List (String × String) → String
  | _, [] => ""
  | first, (n, t) :: rest =>
      (if first then "" else ", ") ++ (t ++ " " ++ n) ++ writeParamsAux false rest

/-- `codegen.rs::JMethod::write_method`. -/
def write_method (m : JMethod) : String :=
  (if m.is_static
    then "\tpublic static native " ++ m.output ++ " " ++ m.name ++ "("
    else "\tpublic native " ++ m.output ++ " " ++ m.name ++ "(")
  ++ writeParamsAux true m.inputs ++ ");\n"

/-- `codegen.rs::JUnionVariant`. -/
structure JUnionVariant where
  name : String
  fields : List JField
deriving DecidableEq, Repr

/-- `codegen.rs::JClassDecl`. -/
inductive JClassDecl where
  | Class (name package : String) (fields : List JField) (methods : List JMethod)
  | Enum (name package : String) (variants : List String) (methods : List JMethod)
  | EnumTaggedUnion (name package : String) (variants : List JUnionVariant)
      (methods : List JMethod)

/-- One field declaration line of the `Class` branch:
`writeln!(out, "\t{} {} {};", field.access, field.jtype, field.name)`. -/
def fieldLine (f : JField) : String :=
  "\t" ++ f.access.render ++ " " ++ f.jtype ++ " " ++ f.name ++ ";\n"

/-- One `this.{f} = {f};` constructor-body line with the given indentation. -/
def assignLine (indent : String) (f : JField) : String :=
  indent ++ "this." ++ f.name ++ " = " ++ f.name ++ ";\n"

/-- The constructor parameter loop: `", "` after every entry whose index is
not `fields.len() - 1`. -/
def ctorParamsAux (len : Nat) : Nat → List JField → String
  | _, [] => ""
  | idx, f :: rest =>
      (f.jtype ++ " " ++ f.name) ++ (if idx ≠ len - 1 then ", " else "")
        ++ ctorParamsAux len (idx + 1) rest

def ctorParams (fields : List JField) : String := ctorParamsAux fields.length 0 fields

/-- The `Enum` branch's variant loop: `",\n"` separator via a `first` flag,
each variant printed as `"\t{variant}"`. -/
def enumVariantsAux : Bool → List String → String
  | _, [] => ""
  | first, v :: rest =>
      (if first then "" else ",\n") ++ ("\t" ++ v) ++ enumVariantsAux false rest

/-- One nested variant class of the `EnumTaggedUnion` branch. -/
def writeUnionVariant (enumName : String) (v : JUnionVariant) : String :=
  "\tpublic static final class " ++ v.name ++ " extends " ++ enumName ++ " \x7b"
  ++ (if v.fields.length > 0 then "\n" else "")
  ++ String.join (v.fields.map fun f =>
       "\t\t" ++ f.access.render ++ " " ++ f.jtype ++ " " ++ f.name ++ ";\n")
  ++ (if v.fields.length > 0 then "\n" else "")
  ++ "\t\tpublic " ++ v.name ++ "(" ++ ctorParams v.fields
  ++ (if v.fields.length > 0 then
        ") \x7b\n" ++ String.join (v.fields.map (assignLine "\t\t\t")) ++ "\t\t\x7d\n"
      else ") \x7b\x7d\n")
  ++ "\t\x7d\n"

/-- `codegen.rs::JClassDecl::write_class_file`. -/
def write_class_file : JClassDecl → String
  | .Class name package fields methods =>
      "package " ++ package ++ ";\n\n"
      ++ "public final class " ++ name ++ " \x7b"
      ++ (if fields.length > 0 || methods.length > 0 then "\n" else "")
      ++ String.join (fields.map fieldLine)
      ++ (if fields.length > 0 then "\n" else "")
      ++ "\tprivate " ++ name ++ "(" ++ ctorParams fields
      ++ (if fields.length > 0 then
            ") \x7b\n" ++ String.join (fields.map (assignLine "\t\t")) ++ "\t\x7d\n"
          else ") \x7b\x7d\n")
      ++ (if methods.length > 0 then "\n" else "")
      ++ String.join (methods.map write_method)
      ++ "\x7d"
  | .Enum name package variants methods =>
      "package " ++ package ++ ";\n\n"
      ++ "public enum " ++ name ++ " \x7b"
      ++ (if variants.length > 0 then "\n" else "")
      ++ enumVariantsAux true variants
      ++ (if variants.length > 0 then ";\n" else "")
      ++ (if methods.length > 0 then "\n" else "")
      ++ String.join (methods.map write_method)
      ++ "\x7d"
  | .EnumTaggedUnion name package variants methods =>
      "package " ++ package ++ ";\n\n"
      ++ "public abstract sealed class " ++ name ++ " \x7b"
      ++ (if variants.length > 0 then "\n" else "")
      ++ String.join (variants.map (writeUnionVariant name))
      ++ (if methods.length > 0 then "\n" else "")
      ++ String.join (methods.map write_method)
      ++ "\x7d"

/-- Standard comma-space-separated join, used to state the parameter-list
format declaratively. -/
def sepCommaSpace : List String → String
  | [] => ""
  | [s] => s
  | s :: rest => s ++ ", " ++ sepCommaSpace rest

/-- Modelled from the spec (section 4.1, method stub rule), for comparison
with `write_method`: `public [static] <output> <name>(<type1> <p1>, ...);`
with parameters separated by `", "`. -/
def methodStubSpecForm (m : JMethod) : String :=
  "public " ++ (if m.is_static then "static " else "") ++ m.output ++ " "
    ++ m.name ++ "(" ++ sepCommaSpace (m.inputs.map fun p => p.2 ++ " " ++ p.1)
    ++ ");"

/-! ### Memoized composite array names (lib.rs, `impl<T: JavaType> JavaType for Box<[T]>`)

`QUALIFIED_NAME` and `JVM_PARAM_SIGNATURE` memoize their result in a
function-local `static NAME: OnceLock<&'static str>`.  By Rust's rules a
`static` item in a generic scope results in exactly one item, NOT one per
monomorphization, so a single cell is shared by every element type `T`.
The cell is modelled as an explicit `Option String` threaded through each
call; a call returns the produced string together with the new cell
state. -/

/-- `OnceLock::get_or_init`: return the cached value if present, otherwise
store and return `compute`. -/
def onceGetOrInit (cache : Option String) (compute : String) : String × Option String :=
  match cache with
  | some v => (v, some v)
  | none => (compute, some compute)

/-- One call of `<Box<[T]> as JavaType>::QUALIFIED_NAME()` where the element
type's qualified name is `elemQualifiedName`; `cache` is the single shared
`NAME` cell. -/
def boxQualifiedName (elemQualifiedName : String) (cache : Option String) :
    String × Option String :=
  onceGetOrInit cache (elemQualifiedName ++ "[]")

/-- One call of `<Box<[T]> as JavaType>::JVM_PARAM_SIGNATURE()`; `cache` is
the single shared `SIGNATURE` cell. -/
def boxJvmParamSignature (elemSignature : String) (cache : Option String) :
    String × Option String :=
  onceGetOrInit cache ("[" ++ elemSignature)

/-! ### Native symbol naming (proc-macro lib.rs, `jmodule`)

Names are modelled as `List Char`; `replaceChar` is Rust's
`str::replace` with a `char` pattern. -/

def replaceChar (c : Char) (r : List Char) : List Char → List Char
  | [] => []
  | x :: xs => (if x = c then r else [x]) ++ replaceChar c r xs

/-- `name.replace('_', "_1")` — applied to the class and method parts. -/
def escapeUnderscores (s : List Char) : List Char :=
  replaceChar '_' ['_', '1'] s

/-- `package_name.replace('_', "_1").replace('.', "_")` — underscores are
doubled first, then dots become (single) underscores. -/
def escapePackage (s : List Char) : List Char :=
  replaceChar '.' ['_'] (escapeUnderscores s)

/-- `format!("Java_{}_{}_{}", ...)` at the `export_name` construction:
the three escaped parts joined by literal underscores after "Java_". -/
def export_symbol (pkg cls method : List Char) : List Char :=
  "Java_".toList ++ escapePackage pkg ++ ['_'] ++ escapeUnderscores cls
    ++ ['_'] ++ escapeUnderscores method

/-- Per-character concatenation map, used for the declarative form of the
escapings. -/
def concatMapChar (f : Char → List Char) : List Char → List Char
  | [] => []
  | x :: xs => f x ++ concatMapChar f xs

/-- Per-character package escaping as the claim describes it: dots become
single underscores, literal underscores are doubled to "_1". -/
def specPkgChar (c : Char) : List Char :=
  if c = '.' then ['_'] else if c = '_' then ['_', '1'] else [c]

/-- Per-character identifier escaping: literal underscores doubled. -/
def specIdChar (c : Char) : List Char :=
  if c = '_' then ['_', '1'] else [c]

/-- Modelled from the spec (section 6, native symbol linkage), as literally
written: `Java_<package escaped><ClassName escaped>_<methodName escaped>` —
note the rule writes no separator between the package part and the class
name part. -/
def specSymbolRule (pkg cls method : List Char) : List Char :=
  "Java_".toList ++ concatMapChar specPkgChar pkg ++ concatMapChar specIdChar cls
    ++ ['_'] ++ concatMapChar specIdChar method

/-! ### Tagged-union runtime dispatch (proc-macro lib.rs, `impl_enum_gen`)

The generated `from_jni` is a sequence of
`if env.is_instance_of(&jni_value, sig)? { return Ok(decode ...) }`
blocks, one per variant in declaration order, followed by a synthesized
`java/lang/RuntimeException` naming the object's runtime class.  The JNI
environment operations on the foreign object are abstracted into the
object model: an `is_instance_of` oracle and the (fallible) class-name
lookup of `jni_util.rs::obj_classname`. -/

structure JObjectModel where
  isInstanceOf : String → JniResult Bool
  className : JniResult String

/-- `Result::unwrap_or`. -/
def unwrapOr {ε α : Type} (d : α) : Except ε α → α
  | .ok v => v
  | .error _ => d

/-- One variant of the generated dispatch: its JVM class signature
(`"{pkg}/{Enum}${Variant}"`) and the body of its `return Ok(...)` block
(the field-by-field decode, which may itself fail). -/
structure UnionVariantRT (V : Type) where
  signature : String
  decode : JObjectModel → JniResult V

/-- The no-match exception:
`format!("JNI: Could not match {} as Rust Enum: {}", enum_name, class_name)`. -/
def protocolMismatch (enumName className : String) : Option JException :=
  some ⟨"java/lang/RuntimeException",
        "JNI: Could not match " ++ enumName ++ " as Rust Enum: " ++ className⟩

/-- The generated tagged-union `from_jni`. -/
def taggedUnionFromJni {V : Type} (enumName : String)
    (variants : List (UnionVariantRT V)) (obj : JObjectModel) : JniResult V :=
  match variants with
  | [] => .error (protocolMismatch enumName (unwrapOr "[UNKNOWN]" obj.className))
  | v :: rest =>
      match obj.isInstanceOf v.signature with
      | .error e => .error e
      | .ok true => v.decode obj
      | .ok false => taggedUnionFromJni enumName rest obj

/-! ### Primitive-array bulk-copy bindings (lib.rs, `JniArray` impls)

Each integer bulk-copy impl reinterprets the boxed native slice as a slice
of the JNI transport type via a raw pointer cast, guarded by
`assert_eq!(TypeId::of::<iW>(), TypeId::of::<jW>())` executed immediately
before the cast on every call.  A lane is described by its bit width and
signedness; each binding records the native element lane, the JNI
transport lane (jni-sys: jbyte = i8, jshort = i16, jint = i32,
jlong = i64) and the concrete lane the assertion compares the transport
alias against. -/

structure LaneDesc where
  width : Nat
  signed : Bool
deriving DecidableEq, Repr

def lane_u8 : LaneDesc := ⟨8, false⟩
def lane_i8 : LaneDesc := ⟨8, true⟩
def lane_u16 : LaneDesc := ⟨16, false⟩
def lane_i16 : LaneDesc := ⟨16, true⟩
def lane_u32 : LaneDesc := ⟨32, false⟩
def lane_i32 : LaneDesc := ⟨32, true⟩
def lane_u64 : LaneDesc := ⟨64, false⟩
def lane_i64 : LaneDesc := ⟨64, true⟩
def lane_jbyte : LaneDesc := lane_i8
def lane_jshort : LaneDesc := lane_i16
def lane_jint : LaneDesc := lane_i32
def lane_jlong : LaneDesc := lane_i64

structure BulkBinding where
  nativeLane : LaneDesc
  transportLane : LaneDesc
  castAssumed : LaneDesc
deriving DecidableEq, Repr

def u8ByteBinding : BulkBinding := ⟨lane_u8, lane_jbyte, lane_i8⟩
def i8ByteBinding : BulkBinding := ⟨lane_i8, lane_jbyte, lane_i8⟩
def u16ShortBinding : BulkBinding := ⟨lane_u16, lane_jshort, lane_i16⟩
def i16ShortBinding : BulkBinding := ⟨lane_i16, lane_jshort, lane_i16⟩
def u32IntBinding : BulkBinding := ⟨lane_u32, lane_jint, lane_i32⟩
def i32IntBinding : BulkBinding := ⟨lane_i32, lane_jint, lane_i32⟩
def u64LongBinding : BulkBinding := ⟨lane_u64, lane_jlong, lane_i64⟩
def i64LongBinding : BulkBinding := ⟨lane_i64, lane_jlong, lane_i64⟩

/-- The integer bulk-copy bindings shipped by lib.rs (the f32/f64 impls
follow the identical pattern with no signedness notion; the bool and
JavaChar impls copy element-wise without a raw pointer cast). -/
def bulkBindings : List BulkBinding :=
  [u8ByteBinding, i8ByteBinding, u16ShortBinding, i16ShortBinding,
   u32IntBinding, i32IntBinding, u64LongBinding, i64LongBinding]

/-! ## Helper lemmas -/

theorem writeParamsAux_false_eq (x : String × String) (xs : List (String × String)) :
    writeParamsAux false (x :: xs) =
      ", " ++ sepCommaSpace ((x :: xs).map fun p => p.2 ++ " " ++ p.1) := by
  induction xs generalizing x with
  | nil =>
      obtain ⟨n, t⟩ := x
      simp [writeParamsAux, sepCommaSpace, String.append_empty]
  | cons y ys ih =>
      obtain ⟨n, t⟩ := x
      rw [show writeParamsAux false ((n, t) :: y :: ys) =
            ", " ++ ((t ++ " " ++ n) ++ writeParamsAux false (y :: ys)) from rfl,
          ih y]
      simp only [List.map_cons, sepCommaSpace]
      simp [String.append_assoc]

theorem writeParams_eq (l : List (String × String)) :
    writeParamsAux true l = sepCommaSpace (l.map fun p => p.2 ++ " " ++ p.1) := by
  cases l with
  | nil => rfl
  | cons x xs =>
      cases xs with
      | nil =>
          obtain ⟨n, t⟩ := x
          simp [writeParamsAux, sepCommaSpace, String.append_empty,
                String.empty_append]
      | cons y ys =>
          obtain ⟨n, t⟩ := x
          rw [show writeParamsAux true ((n, t) :: y :: ys) =
                "" ++ ((t ++ " " ++ n) ++ writeParamsAux false (y :: ys)) from rfl,
              writeParamsAux_false_eq y ys, String.empty_append]
          simp only [List.map_cons, sepCommaSpace]
          simp [String.append_assoc]

theorem concatMapChar_append (f : Char → List Char) (a b : List Char) :
    concatMapChar f (a ++ b) = concatMapChar f a ++ concatMapChar f b := by
  induction a with
  | nil => rfl
  | cons x xs ih => simp [concatMapChar, ih]

theorem replaceChar_eq_concatMap (c : Char) (r : List Char) (s : List Char) :
    replaceChar c r s = concatMapChar (fun x => if x = c then r else [x]) s := by
  induction s with
  | nil => rfl
  | cons x xs ih => simp [replaceChar, concatMapChar, ih]

theorem concatMapChar_concatMapChar (f g : Char → List Char) (s : List Char) :
    concatMapChar g (concatMapChar f s) =
      concatMapChar (fun c => concatMapChar g (f c)) s := by
  induction s with
  | nil => rfl
  | cons x xs ih => simp [concatMapChar, concatMapChar_append, ih]

theorem concatMapChar_congr (f g : Char → List Char)
    (h : ∀ c, f c = g c) (s : List Char) :
    concatMapChar f s = concatMapChar g s := by
  induction s with
  | nil => rfl
  | cons x xs ih => simp [concatMapChar, h, ih]

theorem escapeUnderscores_eq (s : List Char) :
    escapeUnderscores s = concatMapChar specIdChar s := by
  unfold escapeUnderscores
  rw [replaceChar_eq_concatMap]
  exact concatMapChar_congr _ _ (fun c => rfl) s

theorem escapePackage_eq (s : List Char) :
    escapePackage s = concatMapChar specPkgChar s := by
  unfold escapePackage
  rw [escapeUnderscores_eq, replaceChar_eq_concatMap,
      concatMapChar_concatMapChar]
  refine concatMapChar_congr _ _ (fun c => ?_) s
  by_cases hu : c = '_'
  · subst hu; rfl
  · by_cases hd : c = '.'
    · subst hd; rfl
    · simp [specIdChar, specPkgChar, concatMapChar, hu, hd]

/-! ## Claims -/

/-- Claim C1: the claim is right and the code is wrong.  The composite
derivations themselves are correct (`T.QUALIFIED_NAME() ++ "[]"`,
`"[" ++ T.JVM_PARAM_SIGNATURE()`), but the `OnceLock` static lives in the
generic `impl<T> JavaType for Box<[T]>`, so Rust creates exactly one cell
shared by every element type, not one per distinct `T`.  With two distinct
element types in one program, the second caller observes the first
caller's cached string: after `Box<[i32]>::QUALIFIED_NAME()` returns
"int[]", `Box<[u8]>::QUALIFIED_NAME()` also returns "int[]", not "byte[]"
(and likewise for the "[I" / "[B" signatures). -/
theorem array_signature_cache_shared_bug :
    (boxQualifiedName "int" none).1 = "int[]" ∧
    (boxQualifiedName "byte" (boxQualifiedName "int" none).2).1 = "int[]" ∧
    (boxQualifiedName "byte" (boxQualifiedName "int" none).2).1 ≠ "byte[]" ∧
    (boxJvmParamSignature "I" none).1 = "[I" ∧
    (boxJvmParamSignature "B" (boxJvmParamSignature "I" none).2).1 = "[I" ∧
    (boxJvmParamSignature "B" (boxJvmParamSignature "I" none).2).1 ≠ "[B" := by
  decide

/-- Claim C2: the generated native-callable boundary raises and returns as
the claim states.  On `Ok` the converted value is returned and nothing is
raised; on `Err(None)` (pending exception) nothing new is raised and the
sentinel is returned; on `Err(Some e)` exactly the one exception `e` is
raised and the sentinel is returned — never more than one raise per run.
The per-type sentinels are false (0), 0, 0.0-bits, the null handle and
unit. -/
theorem export_boundary_single_raise :
    (∀ (α : Type) (sentinel : α) (v : α),
        export_boundary sentinel (.ok v) = ([], v)) ∧
    (∀ (α : Type) (sentinel : α),
        export_boundary sentinel (.error none) = ([], sentinel)) ∧
    (∀ (α : Type) (sentinel : α) (cls msg : String),
        export_boundary sentinel (.error (some ⟨cls, msg⟩)) =
          ([⟨cls, msg⟩], sentinel)) ∧
    (∀ (α : Type) (sentinel : α) (r : JniResult α),
        (export_boundary sentinel r).1.length ≤ 1) ∧
    bool_EXCEPTION_NULL = 0 ∧ i8_EXCEPTION_NULL = 0 ∧ u8_EXCEPTION_NULL = 0 ∧
    i16_EXCEPTION_NULL = 0 ∧ u16_EXCEPTION_NULL = 0 ∧
    i32_EXCEPTION_NULL = 0 ∧ u32_EXCEPTION_NULL = 0 ∧
    i64_EXCEPTION_NULL = 0 ∧ u64_EXCEPTION_NULL = 0 ∧
    f32_EXCEPTION_NULL = ⟨0⟩ ∧ f64_EXCEPTION_NULL = ⟨0⟩ ∧
    JavaChar_EXCEPTION_NULL = 0 ∧ String_EXCEPTION_NULL = .null ∧
    unit_EXCEPTION_NULL = () := by
  refine ⟨fun α s v => rfl, fun α s => rfl, fun α s c m => rfl,
          fun α s r => ?_, rfl, rfl, rfl, rfl, rfl, rfl, rfl, rfl, rfl,
          rfl, rfl, rfl, rfl, rfl⟩
  cases r with
  | ok v => simp [export_boundary]
  | error e => cases e <;> simp [export_boundary]

/-- Claim C4: emitting the Point class declaration produces exactly the
expected text, byte for byte, with nothing before or after. -/
theorem point_class_exact_output :
    write_class_file
        (.Class "Point" "geo"
          [⟨.Public, "int", "x"⟩, ⟨.Public, "int", "y"⟩] []) =
      "package geo;\n\npublic final class Point \x7b\n\tpublic int x;\n\tpublic int y;\n\n\tprivate Point(int x, int y) \x7b\n\t\tthis.x = x;\n\t\tthis.y = y;\n\t\x7d\n\x7d" := by
  decide

/-- Claim C6: for every scalar marshalled type, converting a value to the
foreign lane and back yields the value again; the unsigned types
round-trip through the signed lane of the same width for every in-range
value (in particular the 8-bit value 200). -/
theorem scalar_roundtrip :
    (∀ b : Bool, (bool_into_jni b >>= bool_from_jni) = .ok b) ∧
    (∀ v : Nat, v < 2 ^ 8 → (u8_into_jni v >>= u8_from_jni) = .ok v) ∧
    (∀ v : Nat, v < 2 ^ 16 → (u16_into_jni v >>= u16_from_jni) = .ok v) ∧
    (∀ v : Nat, v < 2 ^ 32 → (u32_into_jni v >>= u32_from_jni) = .ok v) ∧
    (∀ v : Nat, v < 2 ^ 64 → (u64_into_jni v >>= u64_from_jni) = .ok v) ∧
    (∀ v : Int, (i8_into_jni v >>= i8_from_jni) = .ok v) ∧
    (∀ v : Int, (i16_into_jni v >>= i16_from_jni) = .ok v) ∧
    (∀ v : Int, (i32_into_jni v >>= i32_from_jni) = .ok v) ∧
    (∀ v : Int, (i64_into_jni v >>= i64_from_jni) = .ok v) ∧
    (∀ v : FloatBits, (f32_into_jni v >>= f32_from_jni) = .ok v) ∧
    (∀ v : FloatBits, (f64_into_jni v >>= f64_from_jni) = .ok v) ∧
    (∀ c : JavaChar, (JavaChar_into_jni c >>= JavaChar_from_jni) = .ok c) := by
  refine ⟨fun b => ?_, fun v hv => ?_, fun v hv => ?_, fun v hv => ?_,
          fun v hv => ?_, fun v => rfl, fun v => rfl, fun v => rfl,
          fun v => rfl, fun v => rfl, fun v => rfl, fun c => rfl⟩
  · cases b <;> rfl
  · simp [u8_into_jni, u8_from_jni, bind, Except.bind,
          toUnsigned_toSigned_8 v hv]
  · simp [u16_into_jni, u16_from_jni, bind, Except.bind,
          toUnsigned_toSigned_16 v hv]
  · simp [u32_into_jni, u32_from_jni, bind, Except.bind,
          toUnsigned_toSigned_32 v hv]
  · simp [u64_into_jni, u64_from_jni, bind, Except.bind,
          toUnsigned_toSigned_64 v hv]

/-- Witness for C6: concrete in-range values round-trip; in particular the
8-bit value 200 converts through the signed lane (to -56) and back to
exactly 200. -/
theorem scalar_roundtrip_witness :
    ((2 : Nat) ^ 8 > 200 ∧ (u8_into_jni 200 >>= u8_from_jni) = .ok 200) ∧
    ((2 : Nat) ^ 16 > 40000 ∧ (u16_into_jni 40000 >>= u16_from_jni) = .ok 40000) ∧
    ((2 : Nat) ^ 32 > 3000000000 ∧
      (u32_into_jni 3000000000 >>= u32_from_jni) = .ok 3000000000) ∧
    ((2 : Nat) ^ 64 > 2 ^ 63 + 5 ∧
      (u64_into_jni (2 ^ 63 + 5) >>= u64_from_jni) = .ok (2 ^ 63 + 5)) :=
  ⟨⟨by norm_num, scalar_roundtrip.2.1 200 (by norm_num)⟩,
   ⟨by norm_num, scalar_roundtrip.2.2.1 40000 (by norm_num)⟩,
   ⟨by norm_num, scalar_roundtrip.2.2.2.1 3000000000 (by norm_num)⟩,
   ⟨by norm_num, scalar_roundtrip.2.2.2.2.1 (2 ^ 63 + 5) (by norm_num)⟩⟩

/-- Claim C10: the boolean decoder is total over all 256 jboolean byte
values — every nonzero byte decodes to true, 0 decodes to false, and the
encoder only ever produces 0 or 1; no input fails. -/
theorem jboolean_decoder_total :
    (∀ j : Fin 256, j ≠ 0 → bool_from_jni j = .ok true) ∧
    bool_from_jni 0 = .ok false ∧
    (∀ b : Bool, bool_into_jni b = .ok 0 ∨ bool_into_jni b = .ok 1) := by
  refine ⟨fun j hj => ?_, rfl, fun b => ?_⟩
  · simp [bool_from_jni, hj]
  · cases b
    · exact Or.inl rfl
    · exact Or.inr rfl

/-- Witness for C10: the nonzero byte 200 decodes to true. -/
theorem jboolean_decoder_total_witness :
    (200 : Fin 256) ≠ 0 ∧ bool_from_jni 200 = .ok true :=
  ⟨by decide, jboolean_decoder_total.1 200 (by decide)⟩

/-- Counterexample for C3: the symbol-naming rule as literally written in
the spec (no separator between the escaped package and the escaped class
name) disagrees with the code.  For package "geo", class "Point", method
"foo" the code exports "Java_geo_Point_foo" while the rule as stated
yields "Java_geoPoint_foo". -/
theorem export_symbol_spec_rule_counterexample :
    export_symbol "geo".toList "Point".toList "foo".toList =
      "Java_geo_Point_foo".toList ∧
    specSymbolRule "geo".toList "Point".toList "foo".toList =
      "Java_geoPoint_foo".toList ∧
    export_symbol "geo".toList "Point".toList "foo".toList ≠
      specSymbolRule "geo".toList "Point".toList "foo".toList ∧
    export_symbol "my_pkg.app".toList "My_Class".toList "do_thing".toList =
      "Java_my_1pkg_app_My_1Class_do_1thing".toList := by
  decide

/-- Claim C3 (amended): the exported symbol is
`Java_<escaped package>_<escaped ClassName>_<escaped methodName>` — the
escaped parts are joined by literal underscore separators, including one
between the package and the class name.  The escaping is as the claim
states: literal underscores in all three parts are doubled to "_1", and
dots in the package become single (un-doubled) underscores because the
underscore-doubling replacement runs first. -/
theorem export_symbol_separator_amended (pkg cls method : List Char) :
    export_symbol pkg cls method =
      "Java_".toList ++ concatMapChar specPkgChar pkg ++ ['_']
        ++ concatMapChar specIdChar cls ++ ['_']
        ++ concatMapChar specIdChar method := by
  unfold export_symbol
  simp only [escapePackage_eq, escapeUnderscores_eq]

/-- Claim C5: the generated tagged-union decoder tests the foreign object
against each variant's class signature in declaration order and returns
the first declared variant that matches (whatever later variants would
say); if no variant matches and the class-name lookup succeeds, the
result is a synthesized `java/lang/RuntimeException` whose message names
the object's actual runtime class. -/
theorem tagged_union_first_match :
    (∀ (V : Type) (enumName : String) (pre : List (UnionVariantRT V))
        (v : UnionVariantRT V) (rest : List (UnionVariantRT V))
        (obj : JObjectModel),
        (∀ u ∈ pre, obj.isInstanceOf u.signature = .ok false) →
        obj.isInstanceOf v.signature = .ok true →
        taggedUnionFromJni enumName (pre ++ v :: rest) obj = v.decode obj) ∧
    (∀ (V : Type) (enumName : String) (variants : List (UnionVariantRT V))
        (obj : JObjectModel) (cn : String),
        (∀ u ∈ variants, obj.isInstanceOf u.signature = .ok false) →
        obj.className = .ok cn →
        taggedUnionFromJni enumName variants obj =
          .error (protocolMismatch enumName cn)) := by
  constructor
  · intro V enumName pre v rest obj hpre hv
    induction pre with
    | nil => simp [taggedUnionFromJni, hv]
    | cons u us ih =>
        have hu : obj.isInstanceOf u.signature = .ok false := hpre u (by simp)
        simp only [List.cons_append, taggedUnionFromJni, hu]
        exact ih fun w hw => hpre w (by simp [hw])
  · intro V enumName variants obj cn hall hcn
    induction variants with
    | nil => simp [taggedUnionFromJni, unwrapOr, hcn]
    | cons u us ih =>
        have hu : obj.isInstanceOf u.signature = .ok false := hall u (by simp)
        simp only [taggedUnionFromJni, hu]
        exact ih fun w hw => hall w (by simp [hw])

def unionVariantA : UnionVariantRT Nat := ⟨"geo/U$A", fun _ => .ok 0⟩
def unionVariantB : UnionVariantRT Nat := ⟨"geo/U$B", fun _ => .ok 1⟩

/-- A foreign object whose runtime type matches every tested signature. -/
def unionObjBoth : JObjectModel := ⟨fun _ => .ok true, .ok "geo.U$A"⟩

/-- A foreign object matching no tested signature, of runtime class
"geo.Other". -/
def unionObjNeither : JObjectModel := ⟨fun _ => .ok false, .ok "geo.Other"⟩

/-- Witness for C5: with variants [A, B] and an object matching both
signatures the decoder returns variant A's decode result; with an object
matching neither, it synthesizes the RuntimeException naming the object's
class. -/
theorem tagged_union_first_match_witness :
    taggedUnionFromJni "U" [unionVariantA, unionVariantB] unionObjBoth =
      .ok 0 ∧
    taggedUnionFromJni "U" [unionVariantA, unionVariantB] unionObjNeither =
      .error (protocolMismatch "U" "geo.Other") :=
  ⟨(tagged_union_first_match.1 Nat "U" [] unionVariantA [unionVariantB]
      unionObjBoth (fun u hu => absurd hu (List.not_mem_nil u)) rfl).trans rfl,
   tagged_union_first_match.2 Nat "U" [unionVariantA, unionVariantB]
      unionObjNeither "geo.Other" (fun _ _ => rfl) rfl⟩

def stubExample : JMethod := ⟨true, "foo", [("a", "int")], "int"⟩

/-- Counterexample for C7: the emitted stub line is not exactly of the
spec's form `public [static] <output> <name>(<params>);` — the code also
emits the `native` keyword (and a leading tab and trailing newline): for
a static method `int foo(int a)` it writes
"\tpublic static native int foo(int a);\n". -/
theorem method_stub_spec_form_counterexample :
    write_method stubExample = "\tpublic static native int foo(int a);\n" ∧
    methodStubSpecForm stubExample = "public static int foo(int a);" ∧
    write_method stubExample ≠ methodStubSpecForm stubExample ∧
    write_method stubExample ≠ "\t" ++ methodStubSpecForm stubExample ++ "\n" := by
  decide

/-- Claim C7 (amended): every emitted method stub line has exactly the
form `\tpublic [static] native <output> <name>(<type1> <p1>, ...);\n` —
always public, `static` present iff `is_static`, always `native`, and
parameters in declared order as "<type> <name>" separated by ", ". -/
theorem method_stub_amended_form (m : JMethod) :
    write_method m =
      "\tpublic " ++ (if m.is_static then "static " else "") ++ "native "
        ++ m.output ++ " " ++ m.name ++ "("
        ++ sepCommaSpace (m.inputs.map fun p => p.2 ++ " " ++ p.1)
        ++ ");\n" := by
  obtain ⟨st, name, inputs, output⟩ := m
  cases st <;>
    simp [write_method, writeParams_eq, String.append_assoc,
          String.empty_append]

def emptyEnumWithMethod : JClassDecl :=
  .Enum "E" "p" [] [⟨false, "m", [], "void"⟩]

/-- Claim C8 (evaluation at the failing input): for an Enum with zero
variants and one method the code emits NO `;` terminator before the
method stub (the `;` is written iff variants exist), producing
`public enum E {` directly followed by the stub — invalid Java, contrary
to the claim and the spec's condition.  The two-variant Color scenario
does render `RED,\n\tGREEN;` as claimed. -/
theorem enum_missing_terminator_output :
    write_class_file emptyEnumWithMethod =
      "package p;\n\npublic enum E \x7b\n\tpublic native void m();\n\x7d" ∧
    write_class_file (.Enum "Color" "geo" ["RED", "GREEN"] []) =
      "package geo;\n\npublic enum Color \x7b\n\tRED,\n\tGREEN;\n\x7d" := by
  decide

/-- Counterexample for C9: the u8 ↔ byte-array binding is generated and
shipped although its native element lane (8-bit unsigned) differs in
signedness from the foreign primitive lane (jbyte, 8-bit signed); nothing
rejects it — the raw pointer cast reinterprets the values two's
complement-wise at run time (200 becomes -56).  The `assert_eq!` guard is
a run-time assertion comparing the transport alias with the concrete cast
type, not a binding-generation-time check on the native element lane. -/
theorem bulk_copy_signedness_counterexample :
    u8ByteBinding ∈ bulkBindings ∧
    u8ByteBinding.nativeLane.signed ≠ u8ByteBinding.transportLane.signed ∧
    toSigned 8 200 = -56 := by
  decide

/-- Claim C9 (amended): every shipped integer bulk-copy binding's
assertion checks exactly that the transport alias type equals the
concrete type assumed by the pointer cast (identical width and
signedness, e.g. jbyte = i8), executed on every call before the cast; the
native element type always has the same bit width as the transport lane,
while bindings mapping an unsigned native type onto the signed transport
lane of equal width are deliberate and reinterpret two's
complement-wise rather than being rejected. -/
theorem bulk_copy_width_guard_amended :
    ∀ b ∈ bulkBindings,
      b.castAssumed = b.transportLane ∧
      b.nativeLane.width = b.transportLane.width := by
  decide

/-- Witness for C9 (amended): the u8 binding satisfies the width guard. -/
theorem bulk_copy_width_guard_amended_witness :
    u8ByteBinding ∈ bulkBindings ∧
    u8ByteBinding.castAssumed = u8ByteBinding.transportLane ∧
    u8ByteBinding.nativeLane.width = u8ByteBinding.transportLane.width :=
  ⟨by decide,
   (bulk_copy_width_guard_amended u8ByteBinding (by decide)).1,
   (bulk_copy_width_guard_amended u8ByteBinding (by decide)).2⟩

end InstantCoffee
